import Mathlib

/-!
Verification development for the glassview telemetry and process-control
backend (src-tauri/src/main.rs).  The Rust commands are embedded as pure
Lean functions: the shared `sysinfo::System` snapshot becomes an explicit
`Snapshot` value, external OS effects (signal delivery, renice, file
rename) become explicit function arguments or state passing, and `f32`
readings become rationals.
-/

namespace Glassview

/-! ## String utilities mirroring the Rust `str` methods used by the code -/

/-- Substring test on character lists; mirrors Rust `str::contains` with a
string pattern (true iff `pat` occurs contiguously in the haystack). -/
def containsSub (pat : List Char) : List Char → Bool
  | [] => pat.isEmpty
  | c :: cs => pat.isPrefixOf (c :: cs) || containsSub pat cs

/-- Worker for `rustReplace`: replaces each leftmost, non-overlapping
occurrence of `pat` going left to right, as Rust `str::replace` does.  The
fuel argument (instantiated with the input length, consumed once per
consumed character) only makes the recursion structural. -/
def replaceGo (pat rep : List Char) : Nat → List Char → List Char
  | 0, s => s
  | _ + 1, [] => []
  | fuel + 1, c :: cs =>
    if pat.isPrefixOf (c :: cs) then
      rep ++ replaceGo pat rep fuel (cs.drop (pat.length - 1))
    else
      c :: replaceGo pat rep fuel cs

/-- Rust `str::replace`: replace every non-overlapping occurrence of `pat`
by `rep`, scanning left to right.  Every call site in the program passes a
non-empty pattern. -/
def rustReplace (s pat rep : String) : String :=
  ⟨replaceGo pat.data rep.data s.data.length s.data⟩

/-- Rust `str::ends_with` with a string pattern. -/
def endsWithStr (s pat : String) : Bool :=
  pat.data.isSuffixOf s.data

/-- Lower-cased character data of a string; mirrors Rust
`str::to_lowercase` on the ASCII sensor labels the program handles. -/
def toLowerData (s : String) : List Char :=
  s.data.map Char.toLower

/-! ## Data model (structs of main.rs, readings as rationals) -/

/-- One labeled thermal sensor, as enumerated by `sys.components()`. -/
structure Component where
  label : String
  temperature : ℚ

/-- One known OS user account (`sys.users()` entry): id and name. -/
structure UserAcct where
  id : Nat
  name : String

/-- Raw per-process data as enumerated by `sys.processes()`:
pid, name, optional owning user id, status tag, cpu usage, memory. -/
structure ProcSample where
  pid : Nat
  name : String
  uid : Option Nat
  status : String
  cpu : ℚ
  mem : Nat

/-- The shared `sysinfo::System` snapshot guarded by the `AppState` mutex,
with the fields the commands read.  Lists keep OS enumeration order. -/
structure Snapshot where
  processes : List ProcSample
  users : List UserAcct
  components : List Component
  networksReceived : List Nat
  kernel_version : Option String
  cpu_util : ℚ
  mem_used : Nat
  mem_total : Nat
  uptime : Nat

/-- Serialized per-process record returned by `get_processes`. -/
structure ProcInfo where
  id : Nat
  name : String
  user : String
  status : String
  cpu : ℚ
  mem : Nat

/-- Serialized record returned by `get_system_stats`. -/
structure SystemStats where
  cpu_util : ℚ
  mem_used : Nat
  mem_total : Nat
  net_in : Nat
  cpu_temp : ℚ
  uptime : Nat
  proc_count : Nat

/-- Serialized record returned by `get_security_audit`. -/
structure SecurityAudit where
  kernel_version : String
  secure_boot : Bool
  root_procs : Nat

/-- Serialized record returned by `get_startup_apps`. -/
structure StartupApp where
  name : String
  path : String
  enabled : Bool
deriving DecidableEq

/-! ## get_processes -/

/-- Owner-name resolution of `get_processes`: no reported user id gives
"system"; an id that matches no known user gives "unknown". -/
def resolveUser (users : List UserAcct) (uid : Option Nat) : String :=
  match uid with
  | some u =>
    match users.find? (fun x => x.id == u) with
    | some x => x.name
    | none => "unknown"
  | none => "system"

/-- Builds the `ProcInfo` pushed for one process sample. -/
def toProcInfo (users : List UserAcct) (p : ProcSample) : ProcInfo :=
  { id := p.pid, name := p.name, user := resolveUser users p.uid,
    status := p.status, cpu := p.cpu, mem := p.mem }

/-- The comparator of `procs.sort_by`: `b.cpu.partial_cmp(&a.cpu)`, i.e.
descending cpu.  On rationals the comparison is total, so the
`unwrap_or(Equal)` branch never fires. -/
def cpuDesc (a b : ProcInfo) : Bool :=
  decide (b.cpu ≤ a.cpu)

/-- The command get_processes: build a record per process, stable-sort by cpu
descending (Rust `sort_by` is stable), keep the first 60. -/
def get_processes (s : Snapshot) : List ProcInfo :=
  ((s.processes.map (toProcInfo s.users)).mergeSort cpuDesc).take 60

/-! ## get_system_stats -/

/-- The label test of the temperature loop:
`label.contains("cpu") || label.contains("core") || label.contains("package")`
on the lower-cased label. -/
def matchesCpuLabel (label : String) : Bool :=
  containsSub "cpu".data (toLowerData label) ||
  containsSub "core".data (toLowerData label) ||
  containsSub "package".data (toLowerData label)

/-- The `cpu_t` loop: starting from `0.0`, walk the components in
enumeration order and break at the first matching label, taking its
temperature. -/
def selectCpuTemp : List Component → ℚ
  | [] => 0
  | c :: rest =>
    if matchesCpuLabel c.label then c.temperature else selectCpuTemp rest

/-- The command get_system_stats: sums interface received counters and selects a cpu
temperature from the sensor labels. -/
def get_system_stats (s : Snapshot) : SystemStats :=
  { cpu_util := s.cpu_util
    mem_used := s.mem_used
    mem_total := s.mem_total
    net_in := s.networksReceived.sum
    cpu_temp := selectCpuTemp s.components
    uptime := s.uptime
    proc_count := s.processes.length }

/-! ## get_security_audit -/

/-- The Debug formatting of `process.user_id()`, an `Option<&Uid>`:
`Some(Uid(<decimal id>))` or `None`. -/
def uidDebug : Option Nat → String
  | some u => "Some(Uid(" ++ toString u ++ "))"
  | none => "None"

/-- The `root_count` filter of `get_security_audit`: keep a process iff the
Debug string of its optional user id contains the substring "0". -/
def rootProcsCount (procs : List ProcSample) : Nat :=
  (procs.filter (fun p => containsSub "0".data (uidDebug p.uid).data)).length

/-- The command get_security_audit: kernel version with an "Unknown" default, a
literal `true` for secure_boot, and the filtered process count. -/
def get_security_audit (s : Snapshot) : SecurityAudit :=
  { kernel_version := s.kernel_version.getD "Unknown"
    secure_boot := true
    root_procs := rootProcsCount s.processes }

/-- Modelled from the spec: `is_privileged` is a derived flag that is not
stored in the code; the spec defines it as the resolved owner being the
root/administrator account name. -/
def is_privileged (user : String) : Bool :=
  user == "root"

/-! ## kill_process and set_process_priority -/

/-- The command kill_process: look the pid up in the snapshot map; only when present
is the kill signal delivered (`deliver` stands for `process.kill()`),
otherwise return false. -/
def kill_process (s : Snapshot) (pid : Nat) (deliver : Nat → Bool) : Bool :=
  match s.processes.find? (fun p => p.pid == pid) with
  | some _ => deliver pid
  | none => false

/-- The tier mapping of `set_process_priority`: "High" gives nice -10,
"Low" gives nice 10, every other string falls to the wildcard arm, nice 0
(string-literal match arms are equality tests in order). -/
def tierValue (priority : String) : Int :=
  if priority = "High" then -10
  else if priority = "Low" then 10
  else 0

/-- The command set_process_priority: invoke renice with the mapped value (`renice`
stands for the external renice invocation and its exit status). -/
def set_process_priority (pid : Nat) (priority : String)
    (renice : Int → Nat → Bool) : Bool :=
  renice (tierValue priority) pid

/-! ## Startup entries -/

/-- File-name component of a path: the characters after the last slash
(mirrors `entry.file_name()` for paths produced by `read_dir`). -/
def fileName (path : String) : String :=
  ⟨(path.data.reverse.takeWhile (fun c => c != '/')).reverse⟩

/-- The per-entry classification of `get_startup_apps`: a `.desktop` name
is an enabled entry, otherwise a `.desktop.bak` name is a disabled entry,
any other file is skipped; the entry name strips the suffix with
`str::replace`. -/
def classifyStartup (fname path : String) : Option StartupApp :=
  if endsWithStr fname ".desktop" then
    some { name := rustReplace fname ".desktop" "",
           path := path, enabled := true }
  else if endsWithStr fname ".desktop.bak" then
    some { name := rustReplace fname ".desktop.bak" "",
           path := path, enabled := false }
  else none

/-- The command get_startup_apps over the autostart directory, modelled as the list
of file paths it currently holds, in enumeration order. -/
def get_startup_apps (fs : List String) : List StartupApp :=
  fs.filterMap (fun p => classifyStartup (fileName p) p)

/-- Model of fs::rename on the directory: fails when the source path does
not exist, otherwise moves it to the new path (the moved entry listed
last; no call in this development renames onto a distinct existing file). -/
def fsRename (fs : List String) (old new : String) : Bool × List String :=
  if old ∈ fs then (true, (fs.erase old).concat new) else (false, fs)

/-- The command toggle_startup: compute the target purely by substring replacement on
the given path (add `.bak` after `.desktop` when disabling, strip it when
enabling) and attempt the rename; returns the success flag and the updated
directory. -/
def toggle_startup (fs : List String) (path : String) (enable : Bool) :
    Bool × List String :=
  let new_path :=
    if enable then rustReplace path ".desktop.bak" ".desktop"
    else rustReplace path ".desktop" ".desktop.bak"
  fsRename fs path new_path

/-- A snapshot holding only a sensor list, for the temperature claims. -/
def mkSnap (comps : List Component) : Snapshot :=
  { processes := [], users := [], components := comps,
    networksReceived := [], kernel_version := none,
    cpu_util := 0, mem_used := 0, mem_total := 0, uptime := 0 }

/-- The sensor set of the claims: labels "GPU Core" and "Package id 0" with
readings 40.0 and 65.5, in that enumeration order. -/
def demoSensors : List Component :=
  [⟨"GPU Core", 40⟩, ⟨"Package id 0", 131/2⟩]

/-- A snapshot holding one process, pid 5, for the kill claims. -/
def killSnap : Snapshot :=
  { processes := [⟨5, "init", some 0, "Run", 1, 100⟩], users := [],
    components := [], networksReceived := [], kernel_version := none,
    cpu_util := 0, mem_used := 0, mem_total := 0, uptime := 0 }

/-! ## Helper lemmas -/

/-- The first sensor whose label matches decides the selected temperature. -/
theorem selectCpuTemp_first (pre : List Component) (c : Component)
    (post : List Component)
    (hpre : ∀ x ∈ pre, matchesCpuLabel x.label = false)
    (hc : matchesCpuLabel c.label = true) :
    selectCpuTemp (pre ++ c :: post) = c.temperature := by
  induction pre with
  | nil => simp [selectCpuTemp, hc]
  | cons a as ih =>
    have ha := hpre a (by simp)
    simp only [List.cons_append, selectCpuTemp, ha, Bool.false_eq_true,
      if_false]
    exact ih (fun x hx => hpre x (by simp [hx]))

/-- With no matching label the loop never overwrites the initial 0.0. -/
theorem selectCpuTemp_zero (comps : List Component)
    (h : ∀ c ∈ comps, matchesCpuLabel c.label = false) :
    selectCpuTemp comps = 0 := by
  induction comps with
  | nil => rfl
  | cons a as ih =>
    have ha := h a (by simp)
    simp only [selectCpuTemp, ha, Bool.false_eq_true, if_false]
    exact ih (fun x hx => h x (by simp [hx]))

/-- The descending-cpu comparator is transitive. -/
theorem cpuDesc_trans : ∀ a b c : ProcInfo,
    cpuDesc a b → cpuDesc b c → cpuDesc a c := by
  intro a b c hab hbc
  simp only [cpuDesc, decide_eq_true_eq] at *
  exact le_trans hbc hab

/-- The descending-cpu comparator is total. -/
theorem cpuDesc_total : ∀ a b : ProcInfo, cpuDesc a b || cpuDesc b a := by
  intro a b
  simp only [cpuDesc, Bool.or_eq_true, decide_eq_true_eq]
  exact le_total b.cpu a.cpu

/-- Taking n elements of a list gives a prefix of it. -/
theorem take_isPre {α : Type} (n : Nat) (l : List α) : l.take n <+: l :=
  ⟨l.drop n, List.take_append_drop n l⟩

/-- Stability of `mergeSort` as filter preservation: a predicate whose
holders are pairwise related is untouched by the sort. -/
theorem mergeSort_filter_eq {α : Type} (le : α → α → Bool)
    (htrans : ∀ a b c, le a b → le b c → le a c)
    (htotal : ∀ a b, le a b || le b a)
    (p : α → Bool) (hp : ∀ a b, p a = true → p b = true → le a b = true)
    (l : List α) : (l.mergeSort le).filter p = l.filter p := by
  have h1 : List.Sublist (l.filter p) l := List.filter_sublist l
  have h2 : (l.filter p).Pairwise (fun a b => le a b = true) :=
    List.pairwise_of_forall_mem_list (fun a ha b hb =>
      hp a b (List.of_mem_filter ha) (List.of_mem_filter hb))
  have h3 : List.Sublist (l.filter p) (l.mergeSort le) :=
    List.sublist_mergeSort htrans htotal h2 h1
  have h4 : (l.filter p).filter p = l.filter p := by
    rw [List.filter_eq_self]
    intro a ha
    exact List.of_mem_filter ha
  have h5 : List.Sublist (l.filter p) ((l.mergeSort le).filter p) := by
    have h6 := h3.filter p
    rwa [h4] at h6
  have h7 : ((l.mergeSort le).filter p).length = (l.filter p).length :=
    ((List.mergeSort_perm l le).filter p).length_eq
  exact (h5.eq_of_length h7.symm).symm

/-- A pattern that occurs nowhere in the input leaves `replaceGo`
unchanged, for any fuel. -/
theorem replaceGo_id_of_not_contains (pat rep : List Char)
    (s : List Char) (h : containsSub pat s = false) :
    ∀ fuel, replaceGo pat rep fuel s = s := by
  induction s with
  | nil =>
    intro fuel
    cases fuel <;> rfl
  | cons c cs ih =>
    intro fuel
    rw [containsSub, Bool.or_eq_false_iff] at h
    obtain ⟨h1, h2⟩ := h
    cases fuel with
    | zero => rfl
    | succ n =>
      simp only [replaceGo, h1, Bool.false_eq_true, if_false]
      rw [ih h2 n]

/-- Rust `str::replace` is the identity when the pattern does not occur. -/
theorem rustReplace_id_of_not_contains (path pat rep : String)
    (h : containsSub pat.data path.data = false) :
    rustReplace path pat rep = path := by
  obtain ⟨d⟩ := path
  show String.mk (replaceGo pat.data rep.data d.length d) = String.mk d
  rw [replaceGo_id_of_not_contains pat.data rep.data d h]

/-! ## Claim theorems -/

/-- C1 (counterexample): on the sensor set with labels "GPU Core" and
"Package id 0" and readings 40.0 and 65.5, `get_system_stats` does not
report cpu_temp = 65.5 (the lower-cased "gpu core" already contains
"core", so the first sensor wins). -/
theorem C1_counterexample :
    (get_system_stats (mkSnap demoSensors)).cpu_temp ≠ 131/2 := by
  have h40 : (get_system_stats (mkSnap demoSensors)).cpu_temp = 40 := by
    decide
  rw [h40]
  norm_num

/-- C1 (amended): the label test is a case-insensitive check for any of
the substrings "cpu", "core", "package", with no priority among the
substrings and no "coretemp"/"k10temp" entries; the first sensor in
enumeration order whose label matches wins.  On the claims sensor set the
first match is "GPU Core", so cpu_temp = 40.0, not 65.5. -/
theorem C1_amended_theorem (pre : List Component) (c : Component)
    (post : List Component)
    (hpre : ∀ x ∈ pre, matchesCpuLabel x.label = false)
    (hc : matchesCpuLabel c.label = true) :
    (get_system_stats (mkSnap (pre ++ c :: post))).cpu_temp = c.temperature ∧
    (get_system_stats (mkSnap demoSensors)).cpu_temp = 40 :=
  ⟨selectCpuTemp_first pre c post hpre hc, by decide⟩

/-- C1 (witness): the amended theorem applied at a one-sensor list. -/
theorem C1_witness :
    (get_system_stats (mkSnap ([] ++ ⟨"Package id 0", 131/2⟩ :: []))).cpu_temp
      = 131/2 ∧
    (get_system_stats (mkSnap demoSensors)).cpu_temp = 40 :=
  C1_amended_theorem [] ⟨"Package id 0", 131/2⟩ [] (by simp) (by decide)

/-- C2 (counterexample): with no matching label, `get_system_stats`
reports the numeric value 0.0 itself, the same value reported for a
genuine 0.0 reading of a matching sensor, so the no-data case is not
distinguishable from a true measurement of zero. -/
theorem C2_counterexample :
    (get_system_stats (mkSnap [⟨"nvme composite", 55⟩])).cpu_temp = 0 ∧
    (get_system_stats (mkSnap [⟨"coretemp", 0⟩])).cpu_temp = 0 := by
  decide

/-- C2 (amended): when no sensor label matches, cpu_temp is the numeric
sentinel 0.0 left from the loop initialization, not a marker
distinguishable from a true 0.0 reading. -/
theorem C2_amended_theorem (comps : List Component)
    (h : ∀ c ∈ comps, matchesCpuLabel c.label = false) :
    (get_system_stats (mkSnap comps)).cpu_temp = 0 :=
  selectCpuTemp_zero comps h

/-- C2 (witness): the amended theorem applied at a non-matching sensor. -/
theorem C2_witness :
    (get_system_stats (mkSnap [⟨"nvme composite", 55⟩])).cpu_temp = 0 :=
  C2_amended_theorem [⟨"nvme composite", 55⟩] (by decide)

/-- C3: the returned process list has at most 60 entries, is sorted by
cpu non-increasing, and ties keep enumeration order: for every cpu value,
the output restricted to that value is a prefix of the records built in
enumeration order restricted to that value. -/
theorem C3_theorem (s : Snapshot) :
    (get_processes s).length ≤ 60 ∧
    (get_processes s).Pairwise (fun a b => b.cpu ≤ a.cpu) ∧
    ∀ q : ℚ, (get_processes s).filter (fun p => decide (p.cpu = q)) <+:
      (s.processes.map (toProcInfo s.users)).filter
        (fun p => decide (p.cpu = q)) := by
  refine ⟨?_, ?_, ?_⟩
  · rw [get_processes, List.length_take]
    exact Nat.min_le_left _ _
  · have hs := List.sorted_mergeSort cpuDesc_trans cpuDesc_total
      (s.processes.map (toProcInfo s.users))
    have htk : List.Sublist (get_processes s)
        ((s.processes.map (toProcInfo s.users)).mergeSort cpuDesc) :=
      List.take_sublist _ _
    exact (List.Pairwise.sublist htk hs).imp
      (fun hab => by simpa [cpuDesc] using hab)
  · intro q
    have heq := mergeSort_filter_eq cpuDesc cpuDesc_trans cpuDesc_total
      (fun p => decide (p.cpu = q))
      (fun a b ha hb => by
        simp only [decide_eq_true_eq] at ha hb
        simp [cpuDesc, ha, hb])
      (s.processes.map (toProcInfo s.users))
    have hpre : (get_processes s).filter (fun p => decide (p.cpu = q)) <+:
        ((s.processes.map (toProcInfo s.users)).mergeSort cpuDesc).filter
          (fun p => decide (p.cpu = q)) :=
      List.IsPrefix.filter _ (take_isPre 60 _)
    rwa [heq] at hpre

/-- C4: a process with no reported user id resolves to "system"; an id
that matches no known user resolves to "unknown"; is_privileged holds
exactly of the name "root", so an id-less process is unprivileged. -/
theorem C4_theorem (users : List UserAcct) :
    resolveUser users none = "system" ∧
    is_privileged (resolveUser users none) = false ∧
    (∀ u, users.find? (fun x => x.id == u) = none →
      resolveUser users (some u) = "unknown") ∧
    (∀ name : String, is_privileged name = true ↔ name = "root") := by
  refine ⟨rfl, rfl, ?_, ?_⟩
  · intro u h
    simp [resolveUser, h]
  · intro name
    simp [is_privileged]

/-- C4 (witness): the theorem applied at a one-user account table. -/
theorem C4_witness :
    resolveUser [⟨1000, "alice"⟩] none = "system" ∧
    is_privileged (resolveUser [⟨1000, "alice"⟩] none) = false ∧
    resolveUser [⟨1000, "alice"⟩] (some 1001) = "unknown" ∧
    (is_privileged "root" = true ↔ "root" = "root") := by
  have h := C4_theorem [⟨1000, "alice"⟩]
  exact ⟨h.1, h.2.1, h.2.2.1 1001 rfl, h.2.2.2 "root"⟩

/-- C5 (code evaluation at the failing input): a process whose user id is
1000 resolves to the non-privileged account "alice", yet the audit filter
counts it, because the Debug string of its user id contains the character
"0"; so root_procs is 1 where the claim requires 0. -/
theorem C5_code_eval :
    rootProcsCount [⟨1234, "nginx", some 1000, "Run", 0, 0⟩] = 1 ∧
    resolveUser [⟨1000, "alice"⟩] (some 1000) = "alice" ∧
    is_privileged "alice" = false := by
  decide

/-- C6 (counterexample): no two host states give different secure_boot
results, refuting the claimed existence of such states. -/
theorem C6_counterexample :
    ¬ ∃ s t : Snapshot,
      (get_security_audit s).secure_boot ≠ (get_security_audit t).secure_boot := by
  rintro ⟨s, t, h⟩
  exact h rfl

/-- C6 (amended): secure_boot is the hard-coded constant true for every
host state; an unavailable reading is not represented distinctly from a
genuine reading. -/
theorem C6_amended_theorem (s : Snapshot) :
    (get_security_audit s).secure_boot = true := rfl

/-- C7: for a pid absent from the snapshot map, kill_process returns
false for every possible delivery outcome, so the kill signal is never
delivered; the embedding is a total function, so no panic occurs. -/
theorem C7_theorem (s : Snapshot) (pid : Nat)
    (h : ∀ p ∈ s.processes, p.pid ≠ pid) (deliver : Nat → Bool) :
    kill_process s pid deliver = false := by
  have hf : s.processes.find? (fun p => p.pid == pid) = none := by
    rw [List.find?_eq_none]
    intro p hp
    simp [h p hp]
  simp [kill_process, hf]

/-- C7 (witness): the theorem applied at a snapshot holding only pid 5
and the absent pid 7. -/
theorem C7_witness : kill_process killSnap 7 (fun _ => true) = false :=
  C7_theorem killSnap 7 (by decide) (fun _ => true)

/-- C8: every tier string other than "High" and "Low" (hence every
unrecognized one, and "Normal" itself) maps to nice 0, giving the same
renice invocation and result as "Normal"; "High" maps to -10 (the most
favorable adjustment used) and "Low" to 10 (the least favorable). -/
theorem C8_theorem (pid : Nat) (priority : String)
    (h1 : priority ≠ "High") (_h2 : priority ≠ "Normal")
    (h3 : priority ≠ "Low") (renice : Int → Nat → Bool) :
    tierValue priority = tierValue "Normal" ∧
    set_process_priority pid priority renice =
      set_process_priority pid "Normal" renice ∧
    tierValue "High" = -10 ∧ tierValue "Low" = 10 ∧
    tierValue "Normal" = 0 := by
  have hv : tierValue priority = 0 := by
    simp [tierValue, h1, h3]
  have hN : tierValue "Normal" = 0 := by decide
  refine ⟨hv.trans hN.symm, ?_, by decide, by decide, hN⟩
  simp [set_process_priority, hv, hN]

/-- C8 (witness): the theorem applied at the unrecognized tier "banana". -/
theorem C8_witness :
    tierValue "banana" = tierValue "Normal" ∧
    set_process_priority 3 "banana" (fun v p => v == 0 && p == 3) =
      set_process_priority 3 "Normal" (fun v p => v == 0 && p == 3) ∧
    tierValue "High" = -10 ∧ tierValue "Low" = 10 ∧
    tierValue "Normal" = 0 :=
  C8_theorem 3 "banana" (by decide) (by decide) (by decide)
    (fun v p => v == 0 && p == 3)

/-- C9: disabling /x/app.desktop renames it to /x/app.desktop.bak and the
subsequent listing reports the entry with enabled = false at the new
path; enabling the .bak path renames it back and the listing reports it
with enabled = true. -/
theorem C9_theorem :
    toggle_startup ["/x/app.desktop"] "/x/app.desktop" false =
      (true, ["/x/app.desktop.bak"]) ∧
    get_startup_apps ["/x/app.desktop.bak"] =
      [⟨"app", "/x/app.desktop.bak", false⟩] ∧
    toggle_startup ["/x/app.desktop.bak"] "/x/app.desktop.bak" true =
      (true, ["/x/app.desktop"]) ∧
    get_startup_apps ["/x/app.desktop"] =
      [⟨"app", "/x/app.desktop", true⟩] := by
  decide

/-- C10: the rename target comes from pure substring replacement with no
check of the current state: disabling a path already ending in
".desktop.bak" targets a ".desktop.bak.bak" path (the embedded ".desktop"
is replaced), and enabling a path with no ".desktop.bak" occurrence
renames the path to itself, succeeding exactly when the path exists. -/
theorem C10_theorem :
    toggle_startup ["/x/app.desktop.bak"] "/x/app.desktop.bak" false =
      (true, ["/x/app.desktop.bak.bak"]) ∧
    ∀ path : String, containsSub ".desktop.bak".data path.data = false →
      rustReplace path ".desktop.bak" ".desktop" = path ∧
      ∀ fs : List String,
        (toggle_startup fs path true).1 = decide (path ∈ fs) := by
  refine ⟨by decide, ?_⟩
  intro path h
  have hid : rustReplace path ".desktop.bak" ".desktop" = path :=
    rustReplace_id_of_not_contains path ".desktop.bak" ".desktop" h
  refine ⟨hid, ?_⟩
  intro fs
  simp only [toggle_startup, if_true, hid, fsRename]
  by_cases hm : path ∈ fs
  · simp [hm]
  · simp [hm]

/-- C10 (witness): the general part applied at a path with no ".desktop"
occurrence at all, present in the directory. -/
theorem C10_witness :
    rustReplace "/x/notes.txt" ".desktop.bak" ".desktop" = "/x/notes.txt" ∧
    (toggle_startup ["/x/notes.txt"] "/x/notes.txt" true).1 =
      decide ("/x/notes.txt" ∈ (["/x/notes.txt"] : List String)) := by
  have h := C10_theorem.2 "/x/notes.txt" (by decide)
  exact ⟨h.1, h.2 ["/x/notes.txt"]⟩

end Glassview
